import Mathlib

/-
  Shallow embedding of the client side of the socket.io protocol
  (files src/lib/socket.ts and src/lib/manager.ts), restricted to the
  purely functional content of the operations: every method is modelled
  as a function from the relevant state to the new state together with
  the externally observable actions (packets handed to the manager,
  locally emitted events, ack-callback invocations, manager._destroy
  calls, timers scheduled).
-/

/-- JavaScript values, as far as the client inspects them: strings,
numbers, binary buffers (byte lists), callables (identified by an
opaque token), the ack closures produced by `Socket.ack`, arrays,
plain objects, and `undefined`. -/
inductive Val : Type where
  | undef : Val
  | str : String → Val
  | num : Int → Val
  | bin : List Nat → Val
  | fn : Nat → Val
  | ackFn : Nat → Val
  | arr : List Val → Val
  | obj : List (String × Val) → Val

/-- `typeof v === "function"`. -/
def Val.isFn : Val → Bool
  | .fn _ => true
  | .ackFn _ => true
  | _ => false

mutual
/-- `has-binary2`: recursive detection of binary payloads in a value. -/
def hasBinVal : Val → Bool
  | .bin _ => true
  | .arr vs => hasBinList vs
  | .obj kvs => hasBinObj kvs
  | _ => false

def hasBinList : List Val → Bool
  | [] => false
  | v :: vs => hasBinVal v || hasBinList vs

def hasBinObj : List (String × Val) → Bool
  | [] => false
  | (_, v) :: kvs => hasBinVal v || hasBinObj kvs
end

/-- `packet.data || []` followed by array use: the data viewed as an
argument array (non-arrays never reach this point on well-formed wires). -/
def Val.asArr : Val → List Val
  | .arr vs => vs
  | _ => []

/-- `data.sid` on the inbound CONNECT payload. -/
def Val.sid : Val → Option String
  | .obj kvs =>
      match kvs.lookup "sid" with
      | some (.str s) => some s
      | _ => none
  | _ => none

/-- Packet types of socket.io-parser, with their wire tags. -/
inductive PacketType : Type where
  | CONNECT
  | DISCONNECT
  | EVENT
  | ACK
  | ERROR
  | BINARY_EVENT
  | BINARY_ACK
deriving DecidableEq

/-- Numeric wire tag of a packet type (CONNECT is 0). -/
def PacketType.toNat : PacketType → Nat
  | .CONNECT => 0
  | .DISCONNECT => 1
  | .EVENT => 2
  | .ACK => 3
  | .ERROR => 4
  | .BINARY_EVENT => 5
  | .BINARY_ACK => 6

/-- A protocol packet. `nsp := ""` stands for a not-yet-assigned
namespace (the JS `undefined`); `Socket.packet` always assigns it
before the manager sees socket-originated packets. `compressOpt`
models `options.compress` (`none` when `options` is absent). -/
structure Packet : Type where
  type : PacketType
  nsp : String := ""
  data : Val := .undef
  id : Option Nat := none
  query : Option String := none
  compressOpt : Option Bool := none

/-- The one-shot emit flags record. -/
structure Flags : Type where
  compress : Option Bool := none
  binary : Option Bool := none
deriving DecidableEq

/-- State of a namespace socket (the mutable fields of class `Socket`);
`subs` abstracts the subscription array to whether it is non-null. -/
structure SocketState : Type where
  nsp : String
  id : Option String := none
  connected : Bool := false
  disconnected : Bool := true
  ids : Nat := 0
  acks : List (Nat × Val) := []
  receiveBuffer : List (List Val) := []
  sendBuffer : List Packet := []
  flags : Flags := {}
  subs : Bool := false

/-- The reserved event names of `RESERVED_EVENTS`. -/
def RESERVED_EVENTS : List String :=
  ["connect", "disconnect", "disconnecting", "error", "newListener",
   "removeListener"]

/-- `Socket.packet`: assign the socket's namespace, then hand over to
`Manager._packet`. We record the packet as handed over. -/
def Socket.packetFn (s : SocketState) (p : Packet) : Packet :=
  { p with nsp := s.nsp }

/-- Outcome of `Socket.emit`: a thrown error, a packet handed to
`packet()`, or a packet appended to `sendBuffer`. -/
inductive EmitResult : Type where
  | threw : String → EmitResult
  | sent : Packet → EmitResult
  | buffered : Packet → EmitResult

/-- The packet constructed by a non-throwing emit, whether written or
buffered. -/
def EmitResult.pkt? : EmitResult → Option Packet
  | .threw _ => none
  | .sent p => some p
  | .buffered p => some p

/-- Is the last element of the argument array a callable
(`"function" === typeof args[args.length - 1]`)? -/
def lastIsFn (args : List Val) : Bool :=
  match args.getLast? with
  | some v => v.isFn
  | none => false

/-- `Socket.emit(ev, ...args)`. Mirrors src/lib/socket.ts lines 130-162:
reserved-name check (throwing leaves the state untouched), packet
construction with binary detection overridable by `flags.binary`,
`options.compress = false !== flags.compress`, ack registration when the
last argument is callable, write-or-buffer on `connected`, flags reset. -/
def Socket.emit (s : SocketState) (ev : String) (args0 : List Val) :
    SocketState × EmitResult :=
  if RESERVED_EVENTS.contains ev then
    (s, .threw ("\"" ++ ev ++ "\" is a reserved event name"))
  else
    let args := Val.str ev :: args0
    let ptype :=
      if (match s.flags.binary with
          | some b => b
          | none => hasBinList args) then
        PacketType.BINARY_EVENT
      else
        PacketType.EVENT
    let compress := s.flags.compress != some false
    let withAck := lastIsFn args
    let cb := args.getLast?.getD (Val.str ev)
    let data := if withAck then args.dropLast else args
    let pid := if withAck then some s.ids else none
    let acks := if withAck then s.acks ++ [(s.ids, cb)] else s.acks
    let ids := if withAck then s.ids + 1 else s.ids
    let p : Packet :=
      { type := ptype, data := .arr data, id := pid,
        compressOpt := some compress }
    if s.connected then
      ({ s with acks := acks, ids := ids, flags := {} },
       .sent (Socket.packetFn s p))
    else
      ({ s with acks := acks, ids := ids,
                sendBuffer := s.sendBuffer ++ [p], flags := {} },
       .buffered p)

/-- Observable outcome of a socket-level handler: the state afterwards,
the `super.emit` calls made (each an argument list whose head is the
event name) in order, the packets handed to `Manager._packet` via
`packet()` in order, the pending-ack callbacks invoked, and whether
`manager._destroy(this)` was called. -/
structure Dispatch : Type where
  state : SocketState
  localEvents : List (List Val) := []
  outPackets : List Packet := []
  ackCalls : List (Val × List Val) := []
  destroyed : Bool := false

/-- `Socket.onclose(reason)` (src/lib/socket.ts lines 197-203). -/
def Socket.oncloseFn (s : SocketState) (reason : String) : Dispatch :=
  { state := { s with connected := false, disconnected := true, id := none },
    localEvents := [[.str "disconnect", .str reason]] }

/-- `Socket.onconnect(id)` followed by `emitBuffered()` (src/lib/socket.ts
lines 316-339): record the sid, flip the connection flags, emit
`connect`, replay `receiveBuffer` in order, send every `sendBuffer`
entry through `packet()` in order, clear both buffers. -/
def Socket.onconnect (s : SocketState) (sid : Option String) : Dispatch :=
  let s1 := { s with id := sid, connected := true, disconnected := false }
  { state := { s1 with receiveBuffer := [], sendBuffer := [] },
    localEvents := [Val.str "connect"] :: s1.receiveBuffer,
    outPackets := s1.sendBuffer.map (Socket.packetFn s1) }

/-- `Socket.onevent(packet)` (src/lib/socket.ts lines 256-270): unpack
the argument array, append the ack closure when the packet carries an
id, then deliver locally or push onto `receiveBuffer`. -/
def Socket.onevent (s : SocketState) (p : Packet) : Dispatch :=
  let args :=
    match p.id with
    | some i => p.data.asArr ++ [Val.ackFn i]
    | none => p.data.asArr
  if s.connected then
    { state := s, localEvents := [args] }
  else
    { state := { s with receiveBuffer := s.receiveBuffer ++ [args] } }

/-- `Socket.onack(packet)` (src/lib/socket.ts lines 300-309): look up the
pending callback; when it is callable, invoke it with the packet data
and delete the entry; otherwise drop the packet. -/
def Socket.onack (s : SocketState) (p : Packet) : Dispatch :=
  match p.id with
  | some i =>
      match s.acks.lookup i with
      | some cb =>
          if cb.isFn then
            { state := { s with acks := s.acks.filter (fun kv => kv.1 != i) },
              ackCalls := [(cb, p.data.asArr)] }
          else
            { state := s }
      | none => { state := s }
  | none => { state := s }

/-- `Socket.destroy()` (src/lib/socket.ts lines 359-369): release the
subscriptions (a no-op when already detached) and tell the manager. -/
def Socket.destroyFn (s : SocketState) : SocketState :=
  { s with subs := false }

/-- `Socket.ondisconnect()` (src/lib/socket.ts lines 346-350):
`destroy()` then `onclose("io server disconnect")`. -/
def Socket.ondisconnect (s : SocketState) : Dispatch :=
  let d := Socket.oncloseFn (Socket.destroyFn s) "io server disconnect"
  { d with destroyed := true }

/-- `Socket.onpacket(packet)` (src/lib/socket.ts lines 211-248): accept
iff the namespace matches or the packet is an ERROR on the root
namespace, then dispatch on the packet type. -/
def Socket.onpacket (s : SocketState) (p : Packet) : Dispatch :=
  let sameNamespace := p.nsp == s.nsp
  let rootNamespaceError := p.type == PacketType.ERROR && p.nsp == "/"
  if !sameNamespace && !rootNamespaceError then
    { state := s }
  else
    match p.type with
    | .CONNECT => Socket.onconnect s p.data.sid
    | .EVENT => Socket.onevent s p
    | .BINARY_EVENT => Socket.onevent s p
    | .ACK => Socket.onack s p
    | .BINARY_ACK => Socket.onack s p
    | .DISCONNECT => Socket.ondisconnect s
    | .ERROR => { state := s, localEvents := [[.str "error", p.data]] }

/-- `Socket.disconnect()` (src/lib/socket.ts lines 377-391): when
connected, send a DISCONNECT packet; always `destroy()`; when connected,
`onclose("io client disconnect")`. -/
def Socket.disconnect (s : SocketState) : Dispatch :=
  let out :=
    if s.connected then [Socket.packetFn s { type := PacketType.DISCONNECT }]
    else []
  let s1 := Socket.destroyFn s
  if s.connected then
    let d := Socket.oncloseFn s1 "io client disconnect"
    { d with outPackets := out, destroyed := true }
  else
    { state := s1, outPackets := out, destroyed := true }

/-- State of the closure returned by `Socket.ack(id)`
(src/lib/socket.ts lines 277-292): the captured id and the `sent`
guard flag. -/
structure AckClosure : Type where
  id : Nat
  sent : Bool := false

/-- One invocation of the closure returned by `Socket.ack(id)`: a no-op
once `sent` is set, otherwise set `sent` and send a single ACK or
BINARY_ACK carrying the captured id. -/
def Socket.ackCall (s : SocketState) (c : AckClosure) (args : List Val) :
    AckClosure × Option Packet :=
  if c.sent then (c, none)
  else
    ({ c with sent := true },
     some (Socket.packetFn s
       { type := if hasBinList args then PacketType.BINARY_ACK
                 else PacketType.ACK,
         id := some c.id, data := .arr args }))

/-- The reconnection-relevant fields of the `Manager`;
`reconnectionAttempts` is `none` for the default `Infinity`. -/
structure ManagerState : Type where
  reconnecting : Bool := false
  skipReconnect : Bool := false
  backoffAttempts : Nat := 0
  reconnectionAttempts : Option Nat := none
deriving DecidableEq

/-- `this.backoff.attempts >= this._reconnectionAttempts`, where the
cap may be `Infinity`. -/
def attemptsExhausted (attempts : Nat) (cap : Option Nat) : Bool :=
  match cap with
  | some n => attempts ≥ n
  | none => false

/-- Outcome of one call to `Manager.reconnect()`: the state afterwards,
the events emitted synchronously, and whether a reconnect timer was
scheduled. -/
structure MStep : Type where
  state : ManagerState
  events : List String := []
  timerScheduled : Bool := false
deriving DecidableEq

/-- `Manager.reconnect()` (src/lib/manager.ts lines 699-743): guarded
no-op when already reconnecting or skipping; past the cap, reset the
backoff, emit `reconnect_failed`, clear `reconnecting`, schedule
nothing; otherwise `backoff.duration()` (which increments `attempts`),
set `reconnecting`, schedule the delay timer. -/
def Manager.reconnect (m : ManagerState) : MStep :=
  if m.reconnecting || m.skipReconnect then
    { state := m }
  else if attemptsExhausted m.backoffAttempts m.reconnectionAttempts then
    { state := { m with backoffAttempts := 0, reconnecting := false },
      events := ["reconnect_failed"] }
  else
    { state := { m with backoffAttempts := m.backoffAttempts + 1,
                        reconnecting := true },
      timerScheduled := true }

/-- The pre-encoding mutation of `Manager._packet(packet)`
(src/lib/manager.ts line 623): `if (packet.query && packet.type === 0)
packet.nsp += "?" + packet.query`. The truthiness test on the query
string fails for `undefined` and for the empty string. -/
def Manager.packetPre (p : Packet) : Packet :=
  match p.query with
  | some q =>
      if q ≠ "" ∧ p.type.toNat = 0 then { p with nsp := p.nsp ++ "?" ++ q }
      else p
  | none => p

/-- C3: for every reserved event name and any arguments, `Socket.emit`
throws an `Error` whose message is `"<ev>" is a reserved event name`
(hence contains it), and no packet is sent or buffered. -/
theorem emit_reserved_throws (s : SocketState) (ev : String)
    (args : List Val) (h : RESERVED_EVENTS.contains ev = true) :
    Socket.emit s ev args =
      (s, .threw ("\"" ++ ev ++ "\" is a reserved event name")) ∧
    (Socket.emit s ev args).2.pkt? = none := by
  unfold Socket.emit
  rw [if_pos h]
  exact ⟨rfl, rfl⟩

/-- Witness for C3 at the reserved name `disconnecting`. -/
theorem emit_reserved_throws_witness :
    RESERVED_EVENTS.contains "disconnecting" = true ∧
    (Socket.emit { nsp := "/no" } "disconnecting" [Val.str "bye"] =
       ({ nsp := "/no" },
        .threw "\"disconnecting\" is a reserved event name") ∧
     (Socket.emit { nsp := "/no" } "disconnecting"
        [Val.str "bye"]).2.pkt? = none) :=
  ⟨rfl, emit_reserved_throws { nsp := "/no" } "disconnecting"
    [Val.str "bye"] rfl⟩

/-- C10: when `Socket.emit` throws on a reserved name, the socket state
is entirely unchanged: `ids` is not incremented, `acks` and
`sendBuffer` gain no entry, no packet is handed to the manager, and
`flags` is not reset, so one-shot flags still apply later. -/
theorem emit_reserved_frame (s : SocketState) (ev : String)
    (args : List Val) (h : RESERVED_EVENTS.contains ev = true) :
    (Socket.emit s ev args).1 = s ∧
    (Socket.emit s ev args).1.ids = s.ids ∧
    (Socket.emit s ev args).1.acks = s.acks ∧
    (Socket.emit s ev args).1.sendBuffer = s.sendBuffer ∧
    (Socket.emit s ev args).1.flags = s.flags ∧
    (Socket.emit s ev args).2.pkt? = none := by
  unfold Socket.emit
  rw [if_pos h]
  exact ⟨rfl, rfl, rfl, rfl, rfl, rfl⟩

/-- Witness for C10: a socket carrying a one-shot `compress(false)`
flag keeps it across a throwing emit. -/
theorem emit_reserved_frame_witness :
    RESERVED_EVENTS.contains "error" = true ∧
    ((Socket.emit
        { nsp := "/", flags := { compress := some false } } "error"
        []).1 =
      { nsp := "/", flags := { compress := some false } } ∧
     (Socket.emit
        { nsp := "/", flags := { compress := some false } } "error"
        []).1.ids = 0 ∧
     (Socket.emit
        { nsp := "/", flags := { compress := some false } } "error"
        []).1.acks = [] ∧
     (Socket.emit
        { nsp := "/", flags := { compress := some false } } "error"
        []).1.sendBuffer = [] ∧
     (Socket.emit
        { nsp := "/", flags := { compress := some false } } "error"
        []).1.flags = { compress := some false } ∧
     (Socket.emit
        { nsp := "/", flags := { compress := some false } } "error"
        []).2.pkt? = none) :=
  ⟨rfl, emit_reserved_frame
    { nsp := "/", flags := { compress := some false } } "error" [] rfl⟩

/-- Helper: a non-throwing emit always constructs a packet whose
`options.compress` records whether `flags.compress` differed from
`false`, and always resets `flags`. -/
theorem emit_pkt_compress (s : SocketState) (ev : String)
    (args : List Val) (h : RESERVED_EVENTS.contains ev = false) :
    (∃ p, (Socket.emit s ev args).2.pkt? = some p ∧
       p.compressOpt = some (s.flags.compress != some false)) ∧
    (Socket.emit s ev args).1.flags = {} := by
  unfold Socket.emit
  rw [if_neg (by rw [h]; decide)]
  by_cases hc : s.connected = true
  · rw [if_pos hc]
    exact ⟨⟨_, rfl, rfl⟩, rfl⟩
  · rw [if_neg hc]
    exact ⟨⟨_, rfl, rfl⟩, rfl⟩

/-- C5: every successful emit sends or buffers a packet with
`options.compress = true` unless `flags.compress` was set to `false`;
afterwards `flags` is empty, so the next emit without a new flag call
has `compress = true` again. -/
theorem emit_compress_default (s : SocketState) (ev : String)
    (args : List Val) (h : RESERVED_EVENTS.contains ev = false) :
    (∀ p, (Socket.emit s ev args).2.pkt? = some p →
       p.compressOpt = some (s.flags.compress != some false)) ∧
    (s.flags.compress ≠ some false →
       ∀ p, (Socket.emit s ev args).2.pkt? = some p →
         p.compressOpt = some true) ∧
    (Socket.emit s ev args).1.flags = {} ∧
    (∀ ev2 args2, RESERVED_EVENTS.contains ev2 = false →
       ∀ p2,
         (Socket.emit (Socket.emit s ev args).1 ev2 args2).2.pkt? =
           some p2 →
         p2.compressOpt = some true) := by
  obtain ⟨⟨p, hp, hcomp⟩, hflags⟩ := emit_pkt_compress s ev args h
  refine ⟨?_, ?_, hflags, ?_⟩
  · intro p' hp'
    rw [hp] at hp'
    cases hp'
    exact hcomp
  · intro hne p' hp'
    rw [hp] at hp'
    cases hp'
    rw [hcomp]
    have hb : (s.flags.compress != some false) = true := by
      simp only [bne_iff_ne]
      exact hne
    rw [hb]
  · intro ev2 args2 h2 p2 hp2
    obtain ⟨⟨q, hq, hqc⟩, _⟩ :=
      emit_pkt_compress (Socket.emit s ev args).1 ev2 args2 h2
    rw [hq] at hp2
    cases hp2
    rw [hqc, hflags]
    rfl

/-- Witness for C5 at a fresh socket emitting `hi`. -/
theorem emit_compress_default_witness :
    RESERVED_EVENTS.contains "hi" = false ∧
    ({ nsp := "/" } : SocketState).flags.compress ≠ some false ∧
    (Socket.emit { nsp := "/" } "hi" []).1.flags = {} ∧
    (Socket.emit { nsp := "/" } "hi" []).2.pkt? =
      some { type := .EVENT, data := .arr [Val.str "hi"],
             compressOpt := some true } ∧
    ({ type := .EVENT, data := .arr [Val.str "hi"],
       compressOpt := some true } : Packet).compressOpt = some true :=
  ⟨rfl, by decide,
   (emit_compress_default { nsp := "/" } "hi" [] rfl).2.2.1,
   rfl,
   (emit_compress_default { nsp := "/" } "hi" [] rfl).2.1 (by decide)
     _ rfl⟩

/-- C8: the closure produced by `Socket.ack(id)` sends exactly one ACK
or BINARY_ACK packet carrying that id on its first invocation, and
every subsequent invocation, with any arguments, sends nothing and
changes no state. -/
theorem ackCall_fires_once (s : SocketState) (i : Nat)
    (args args2 : List Val) :
    (∃ p, Socket.ackCall s { id := i } args =
        ({ id := i, sent := true }, some p) ∧
      p.id = some i ∧
      (p.type = PacketType.ACK ∨ p.type = PacketType.BINARY_ACK)) ∧
    Socket.ackCall s { id := i, sent := true } args2 =
      ({ id := i, sent := true }, none) := by
  constructor
  · by_cases hb : hasBinList args = true
    · refine ⟨_, rfl, rfl, Or.inr ?_⟩
      simp [Socket.packetFn, hb]
    · refine ⟨_, rfl, rfl, Or.inl ?_⟩
      simp [Socket.packetFn, hb]
  · rfl

/-- C9: `Socket.disconnect()` on a socket whose `connected` flag is
false sends no DISCONNECT packet and emits no local `disconnect`
event; it only nulls `subs` and calls `manager._destroy`, leaving
`connected`, `disconnected`, `id`, `ids`, `acks`, `sendBuffer` and
`receiveBuffer` unchanged. -/
theorem disconnect_disconnected_frame (s : SocketState)
    (h : s.connected = false) :
    Socket.disconnect s =
      { state := { s with subs := false }, localEvents := [],
        outPackets := [], ackCalls := [], destroyed := true } ∧
    (Socket.disconnect s).state.connected = s.connected ∧
    (Socket.disconnect s).state.disconnected = s.disconnected ∧
    (Socket.disconnect s).state.id = s.id ∧
    (Socket.disconnect s).state.ids = s.ids ∧
    (Socket.disconnect s).state.acks = s.acks ∧
    (Socket.disconnect s).state.sendBuffer = s.sendBuffer ∧
    (Socket.disconnect s).state.receiveBuffer = s.receiveBuffer ∧
    (Socket.disconnect s).state.subs = false ∧
    (Socket.disconnect s).destroyed = true := by
  have hd : Socket.disconnect s =
      { state := { s with subs := false }, localEvents := [],
        outPackets := [], ackCalls := [], destroyed := true } := by
    simp [Socket.disconnect, Socket.destroyFn, h]
  rw [hd]
  exact ⟨rfl, rfl, rfl, rfl, rfl, rfl, rfl, rfl, rfl, rfl⟩

/-- Witness for C9 at a disconnected socket holding buffered data. -/
theorem disconnect_disconnected_frame_witness :
    ({ nsp := "/", ids := 3, acks := [(2, Val.fn 5)],
       sendBuffer := [{ type := .EVENT }], subs := true } :
        SocketState).connected = false ∧
    Socket.disconnect
      { nsp := "/", ids := 3, acks := [(2, Val.fn 5)],
        sendBuffer := [{ type := .EVENT }], subs := true } =
      { state := { nsp := "/", ids := 3, acks := [(2, Val.fn 5)],
                   sendBuffer := [{ type := .EVENT }], subs := false },
        localEvents := [], outPackets := [], ackCalls := [],
        destroyed := true } :=
  ⟨rfl,
   (disconnect_disconnected_frame
     { nsp := "/", ids := 3, acks := [(2, Val.fn 5)],
       sendBuffer := [{ type := .EVENT }], subs := true } rfl).1⟩

/-- C4: when `Manager.reconnect()` runs (past its re-entrancy guard)
with `backoff.attempts ≥ reconnectionAttempts`, it resets the backoff,
emits `reconnect_failed`, leaves `_reconnecting` false, and schedules
no reconnect timer. -/
theorem reconnect_attempts_cap (m : ManagerState)
    (h1 : m.reconnecting = false) (h2 : m.skipReconnect = false)
    (h3 : attemptsExhausted m.backoffAttempts m.reconnectionAttempts =
      true) :
    Manager.reconnect m =
      { state := { m with backoffAttempts := 0, reconnecting := false },
        events := ["reconnect_failed"], timerScheduled := false } ∧
    (Manager.reconnect m).state.backoffAttempts = 0 ∧
    (Manager.reconnect m).events = ["reconnect_failed"] ∧
    (Manager.reconnect m).state.reconnecting = false ∧
    (Manager.reconnect m).timerScheduled = false := by
  have hd : Manager.reconnect m =
      { state := { m with backoffAttempts := 0, reconnecting := false },
        events := ["reconnect_failed"], timerScheduled := false } := by
    simp [Manager.reconnect, h1, h2, h3]
  rw [hd]
  exact ⟨rfl, rfl, rfl, rfl, rfl⟩

/-- Witness for C4: two failed attempts against a cap of two. -/
theorem reconnect_attempts_cap_witness :
    ({ backoffAttempts := 2, reconnectionAttempts := some 2 } :
        ManagerState).reconnecting = false ∧
    ({ backoffAttempts := 2, reconnectionAttempts := some 2 } :
        ManagerState).skipReconnect = false ∧
    attemptsExhausted 2 (some 2) = true ∧
    Manager.reconnect
        { backoffAttempts := 2, reconnectionAttempts := some 2 } =
      { state := { backoffAttempts := 0, reconnecting := false,
                   reconnectionAttempts := some 2 },
        events := ["reconnect_failed"], timerScheduled := false } :=
  ⟨rfl, rfl, rfl,
   (reconnect_attempts_cap
     { backoffAttempts := 2, reconnectionAttempts := some 2 }
     rfl rfl rfl).1⟩

/-- Counterexample for C6: a CONNECT packet whose `query` field is set
to the empty string passes through `Manager._packet` with its `nsp`
unchanged, although the claim requires the `"?" + query` append for
every CONNECT with `query` set. -/
theorem packetPre_empty_query_cex :
    ({ type := .CONNECT, nsp := "/admin", query := some "" } :
        Packet).type = PacketType.CONNECT ∧
    ({ type := .CONNECT, nsp := "/admin", query := some "" } :
        Packet).query = some "" ∧
    Manager.packetPre
        { type := .CONNECT, nsp := "/admin", query := some "" } =
      { type := .CONNECT, nsp := "/admin", query := some "" } ∧
    (Manager.packetPre
        { type := .CONNECT, nsp := "/admin", query := some "" }).nsp ≠
      "/admin" ++ "?" ++ "" := by
  refine ⟨rfl, rfl, rfl, ?_⟩
  intro hcontra
  exact absurd hcontra (by decide)

/-- C6 (amended): `Manager._packet` appends `"?" + query` to `nsp`
exactly when the packet is a CONNECT whose `query` is set to a
non-empty string; every other packet, including a CONNECT whose query
is absent or empty, is left unchanged. -/
theorem packetPre_query_append (p : Packet) :
    (∀ q, p.query = some q → q ≠ "" → p.type = PacketType.CONNECT →
       Manager.packetPre p = { p with nsp := p.nsp ++ "?" ++ q }) ∧
    (p.type ≠ PacketType.CONNECT → Manager.packetPre p = p) ∧
    (p.query = none ∨ p.query = some "" → Manager.packetPre p = p) := by
  refine ⟨?_, ?_, ?_⟩
  · intro q hq hne htype
    simp [Manager.packetPre, hq, hne, htype, PacketType.toNat]
  · intro htype
    have ht0 : p.type.toNat ≠ 0 := by
      cases htp : p.type
      case CONNECT => exact absurd htp htype
      all_goals simp [PacketType.toNat]
    cases hq : p.query with
    | none => simp [Manager.packetPre, hq]
    | some q => simp [Manager.packetPre, hq, ht0]
  · intro hq
    cases hq with
    | inl hn => simp [Manager.packetPre, hn]
    | inr hs => simp [Manager.packetPre, hs]

/-- Witness for C6 (amended): a CONNECT to `/chat` with query `a=b`
gets `"?a=b"` appended; a CONNECT without query and an EVENT with a
query are untouched. -/
theorem packetPre_query_append_witness :
    Manager.packetPre { type := .CONNECT, nsp := "/chat",
                        query := some "a=b" } =
      { type := .CONNECT, nsp := "/chat?a=b", query := some "a=b" } ∧
    Manager.packetPre { type := .CONNECT, nsp := "/chat" } =
      { type := .CONNECT, nsp := "/chat" } ∧
    Manager.packetPre { type := .EVENT, nsp := "/chat",
                        query := some "a=b" } =
      { type := .EVENT, nsp := "/chat", query := some "a=b" } := by
  refine ⟨?_, ?_, ?_⟩
  · have h := (packetPre_query_append
      { type := .CONNECT, nsp := "/chat", query := some "a=b" }).1
      "a=b" rfl (by decide) rfl
    rw [h]
    rfl
  · exact (packetPre_query_append
      { type := .CONNECT, nsp := "/chat" }).2.2 (Or.inl rfl)
  · exact (packetPre_query_append
      { type := .EVENT, nsp := "/chat", query := some "a=b" }).2.1
      (by decide)

/-- C7: `Socket.onpacket` dispatches a packet iff its namespace equals
the socket's, except that an ERROR packet on the root namespace is
also delivered as a local `error` event; every other non-matching
packet is ignored with no state change and no output. -/
theorem onpacket_namespace_filter (s : SocketState) (p : Packet) :
    (p.nsp ≠ s.nsp → ¬(p.type = PacketType.ERROR ∧ p.nsp = "/") →
       Socket.onpacket s p = { state := s }) ∧
    (p.type = PacketType.ERROR → p.nsp = "/" →
       (Socket.onpacket s p).state = s ∧
       (Socket.onpacket s p).localEvents = [[.str "error", p.data]] ∧
       (Socket.onpacket s p).outPackets = []) ∧
    (p.nsp = s.nsp ∨ (p.type = PacketType.ERROR ∧ p.nsp = "/") →
       Socket.onpacket s p =
         match p.type with
         | .CONNECT => Socket.onconnect s p.data.sid
         | .EVENT => Socket.onevent s p
         | .BINARY_EVENT => Socket.onevent s p
         | .ACK => Socket.onack s p
         | .BINARY_ACK => Socket.onack s p
         | .DISCONNECT => Socket.ondisconnect s
         | .ERROR =>
             { state := s, localEvents := [[.str "error", p.data]] }) := by
  refine ⟨?_, ?_, ?_⟩
  · intro hns herr
    have hsame : (p.nsp == s.nsp) = false := by
      simp only [beq_eq_false_iff_ne, ne_eq]
      exact hns
    have hroot : (p.type == PacketType.ERROR && p.nsp == "/") = false := by
      by_cases ht : p.type = PacketType.ERROR
      · have hsl : (p.nsp == "/") = false := by
          simp only [beq_eq_false_iff_ne, ne_eq]
          exact fun hh => herr ⟨ht, hh⟩
        simp [hsl]
      · simp [ht]
    simp [Socket.onpacket, hsame, hroot]
  · intro ht hn
    have hd : Socket.onpacket s p =
        { state := s, localEvents := [[.str "error", p.data]] } := by
      simp [Socket.onpacket, ht, hn]
    rw [hd]
    exact ⟨rfl, rfl, rfl⟩
  · intro hacc
    have hcond :
        (!(p.nsp == s.nsp) &&
          !(p.type == PacketType.ERROR && p.nsp == "/")) = false := by
      cases hacc with
      | inl hn => simp [hn]
      | inr hre => simp [hre.1, hre.2]
    unfold Socket.onpacket
    rw [if_neg (by rw [hcond]; decide)]

/-- Witness for C7: a foreign EVENT is dropped; a root-namespace ERROR
reaches a socket on `/chat`. -/
theorem onpacket_namespace_filter_witness :
    Socket.onpacket { nsp := "/chat" }
        { type := .EVENT, nsp := "/other",
          data := .arr [Val.str "news"] } =
      { state := { nsp := "/chat" } } ∧
    (Socket.onpacket { nsp := "/chat" }
        { type := .ERROR, nsp := "/",
          data := .str "Auth failed" }).state = { nsp := "/chat" } ∧
    (Socket.onpacket { nsp := "/chat" }
        { type := .ERROR, nsp := "/",
          data := .str "Auth failed" }).localEvents =
      [[.str "error", .str "Auth failed"]] :=
  ⟨(onpacket_namespace_filter { nsp := "/chat" }
      { type := .EVENT, nsp := "/other",
        data := .arr [Val.str "news"] }).1
    (by decide) (by simp),
   ((onpacket_namespace_filter { nsp := "/chat" }
      { type := .ERROR, nsp := "/",
        data := .str "Auth failed" }).2.1 rfl rfl).1,
   ((onpacket_namespace_filter { nsp := "/chat" }
      { type := .ERROR, nsp := "/",
        data := .str "Auth failed" }).2.1 rfl rfl).2.1⟩

/-- C1: an emit of a non-reserved event while disconnected appends the
constructed packet to `sendBuffer` without writing it, and an inbound
CONNECT on the socket's namespace sends every `sendBuffer` entry via
`packet()` in FIFO order, leaving `sendBuffer` empty. -/
theorem emit_buffered_then_flush (s s2 : SocketState) (ev : String)
    (args : List Val) (p : Packet)
    (hres : RESERVED_EVENTS.contains ev = false)
    (hconn : s.connected = false)
    (hp : p.type = PacketType.CONNECT) (hnsp : p.nsp = s2.nsp) :
    (∃ q, (Socket.emit s ev args).2 = .buffered q ∧
       (Socket.emit s ev args).1.sendBuffer = s.sendBuffer ++ [q]) ∧
    (Socket.onpacket s2 p).outPackets =
      s2.sendBuffer.map (fun q => { q with nsp := s2.nsp }) ∧
    (Socket.onpacket s2 p).state.sendBuffer = [] := by
  refine ⟨?_, ?_, ?_⟩
  · unfold Socket.emit
    rw [if_neg (by rw [hres]; decide)]
    rw [if_neg (by rw [hconn]; decide)]
    exact ⟨_, rfl, rfl⟩
  · simp [Socket.onpacket, hp, hnsp, Socket.onconnect, Socket.packetFn]
  · simp [Socket.onpacket, hp, hnsp, Socket.onconnect]

/-- Witness for C1: `hello` emitted while disconnected lands in the
buffer; a CONNECT on `/` flushes a one-entry buffer in order. -/
theorem emit_buffered_then_flush_witness :
    RESERVED_EVENTS.contains "hello" = false ∧
    ({ nsp := "/" } : SocketState).connected = false ∧
    (Socket.emit { nsp := "/" } "hello" []).2 =
      .buffered { type := .EVENT, data := .arr [Val.str "hello"],
                  compressOpt := some true } ∧
    (Socket.emit { nsp := "/" } "hello" []).1.sendBuffer =
      [{ type := .EVENT, data := .arr [Val.str "hello"],
         compressOpt := some true }] ∧
    (Socket.onpacket
        { nsp := "/",
          sendBuffer := [{ type := .EVENT,
                           data := .arr [Val.str "hello"],
                           compressOpt := some true }] }
        { type := .CONNECT, nsp := "/",
          data := .obj [("sid", .str "abc")] }).outPackets =
      [{ type := .EVENT, nsp := "/", data := .arr [Val.str "hello"],
         compressOpt := some true }] ∧
    (Socket.onpacket
        { nsp := "/",
          sendBuffer := [{ type := .EVENT,
                           data := .arr [Val.str "hello"],
                           compressOpt := some true }] }
        { type := .CONNECT, nsp := "/",
          data := .obj [("sid", .str "abc")] }).state.sendBuffer =
      [] := by
  have h := emit_buffered_then_flush { nsp := "/" }
    { nsp := "/",
      sendBuffer := [{ type := .EVENT, data := .arr [Val.str "hello"],
                       compressOpt := some true }] }
    "hello" [] { type := .CONNECT, nsp := "/",
                 data := .obj [("sid", .str "abc")] }
    rfl rfl rfl rfl
  exact ⟨rfl, rfl, rfl, rfl, h.2.1.trans rfl, h.2.2⟩

/-- Well-formedness of the pending-ack table: every key was taken from
the `ids` counter (so is below it), every stored callback is callable,
and keys are pairwise distinct. -/
def acksWF (s : SocketState) : Prop :=
  (∀ kv ∈ s.acks, kv.1 < s.ids ∧ kv.2.isFn = true) ∧
  (s.acks.map Prod.fst).Nodup

theorem lastIsFn_getD (args : List Val) (d : Val)
    (h : lastIsFn args = true) : (args.getLast?.getD d).isFn = true := by
  unfold lastIsFn at h
  cases hg : args.getLast? with
  | none => rw [hg] at h; cases h
  | some v => rw [hg] at h; simpa [hg] using h

theorem emit_state_of_reserved (s : SocketState) (ev : String)
    (args : List Val) (h : RESERVED_EVENTS.contains ev = true) :
    (Socket.emit s ev args).1 = s := by
  unfold Socket.emit
  rw [if_pos h]

/-- Shape of the ack bookkeeping performed by a non-throwing emit. -/
theorem emit_acks_ids (s : SocketState) (ev : String) (args : List Val)
    (h : RESERVED_EVENTS.contains ev = false) :
    ((Socket.emit s ev args).1.acks =
       if lastIsFn (Val.str ev :: args) = true then
         s.acks ++
           [(s.ids, (Val.str ev :: args).getLast?.getD (Val.str ev))]
       else s.acks) ∧
    ((Socket.emit s ev args).1.ids =
       if lastIsFn (Val.str ev :: args) = true then s.ids + 1
       else s.ids) := by
  unfold Socket.emit
  rw [if_neg (by rw [h]; decide)]
  by_cases hw : lastIsFn (Val.str ev :: args) = true
  · by_cases hc : s.connected = true
    · rw [if_pos hc]; simp [hw]
    · rw [if_neg hc]; simp [hw]
  · have hw' : lastIsFn (Val.str ev :: args) = false :=
      Bool.eq_false_iff.mpr hw
    by_cases hc : s.connected = true
    · rw [if_pos hc]; simp [hw']
    · rw [if_neg hc]; simp [hw']

theorem lookup_mem {l : List (Nat × Val)} {i : Nat} {cb : Val}
    (h : l.lookup i = some cb) : (i, cb) ∈ l := by
  induction l with
  | nil => cases h
  | cons kv rest ih =>
      obtain ⟨k, v⟩ := kv
      simp only [List.lookup] at h
      by_cases hk : (i == k) = true
      · rw [hk] at h
        have hki : i = k := by simpa using hk
        have hv : v = cb := by
          injection h
        subst hki
        subst hv
        exact List.mem_cons_self _ _
      · have hk' : (i == k) = false := Bool.eq_false_iff.mpr hk
        rw [hk'] at h
        exact List.mem_cons_of_mem _ (ih h)

theorem not_mem_map_fst_filter (l : List (Nat × Val)) (i : Nat) :
    i ∉ (l.filter (fun kv => kv.1 != i)).map Prod.fst := by
  intro hmem
  obtain ⟨kv, hkv, hfst⟩ := List.mem_map.mp hmem
  have hne : (kv.1 != i) = true := (List.mem_filter.mp hkv).2
  exact (bne_iff_ne.mp hne) hfst

/-- `Socket.onack` either leaves the ack table alone or deletes the
entry under the packet id; `ids` is never touched. -/
theorem onack_cases (s : SocketState) (p : Packet) :
    ((Socket.onack s p).state.acks = s.acks ∨
     ∃ i, p.id = some i ∧
       (Socket.onack s p).state.acks =
         s.acks.filter (fun kv => kv.1 != i)) ∧
    (Socket.onack s p).state.ids = s.ids := by
  unfold Socket.onack
  rcases hpid : p.id with _ | i
  · exact ⟨Or.inl rfl, rfl⟩
  · dsimp only
    rcases hlk : s.acks.lookup i with _ | cb
    · exact ⟨Or.inl rfl, rfl⟩
    · dsimp only
      by_cases hf : cb.isFn = true
      · rw [if_pos hf]
        exact ⟨Or.inr ⟨i, rfl, rfl⟩, rfl⟩
      · rw [if_neg hf]
        exact ⟨Or.inl rfl, rfl⟩

/-- Dispatch equation for an accepted packet. -/
theorem onpacket_dispatch (s : SocketState) (p : Packet)
    (hcond : (!(p.nsp == s.nsp) &&
      !(p.type == PacketType.ERROR && p.nsp == "/")) = false) :
    Socket.onpacket s p =
      match p.type with
      | .CONNECT => Socket.onconnect s p.data.sid
      | .EVENT => Socket.onevent s p
      | .BINARY_EVENT => Socket.onevent s p
      | .ACK => Socket.onack s p
      | .BINARY_ACK => Socket.onack s p
      | .DISCONNECT => Socket.ondisconnect s
      | .ERROR =>
          { state := s, localEvents := [[.str "error", p.data]] } := by
  unfold Socket.onpacket
  rw [if_neg (by rw [hcond]; decide)]

/-- `onpacket` either leaves the ack table alone or (through `onack`)
deletes the entry under the packet id; `ids` is never touched. -/
theorem onpacket_acks_cases (s : SocketState) (p : Packet) :
    ((Socket.onpacket s p).state.acks = s.acks ∨
     ∃ i, p.id = some i ∧
       (Socket.onpacket s p).state.acks =
         s.acks.filter (fun kv => kv.1 != i)) ∧
    (Socket.onpacket s p).state.ids = s.ids := by
  by_cases hcond :
      (!(p.nsp == s.nsp) &&
        !(p.type == PacketType.ERROR && p.nsp == "/")) = true
  · unfold Socket.onpacket
    rw [if_pos hcond]
    exact ⟨Or.inl rfl, rfl⟩
  · rw [onpacket_dispatch s p (Bool.eq_false_iff.mpr hcond)]
    cases p.type with
    | CONNECT => exact ⟨Or.inl rfl, rfl⟩
    | DISCONNECT => exact ⟨Or.inl rfl, rfl⟩
    | ERROR => exact ⟨Or.inl rfl, rfl⟩
    | EVENT =>
        unfold Socket.onevent
        by_cases hc : s.connected = true
        · rw [if_pos hc]; exact ⟨Or.inl rfl, rfl⟩
        · rw [if_neg hc]; exact ⟨Or.inl rfl, rfl⟩
    | BINARY_EVENT =>
        unfold Socket.onevent
        by_cases hc : s.connected = true
        · rw [if_pos hc]; exact ⟨Or.inl rfl, rfl⟩
        · rw [if_neg hc]; exact ⟨Or.inl rfl, rfl⟩
    | ACK => exact onack_cases s p
    | BINARY_ACK => exact onack_cases s p

/-- An accepted ACK whose id hits a callable entry deletes exactly that
entry. -/
theorem onack_removes (s : SocketState) (p : Packet) (i : Nat) (cb : Val)
    (hid : p.id = some i) (hlk : s.acks.lookup i = some cb)
    (hfn : cb.isFn = true) :
    (Socket.onack s p).state.acks =
      s.acks.filter (fun kv => kv.1 != i) := by
  unfold Socket.onack
  rw [hid]
  dsimp only
  rw [hlk]
  dsimp only
  rw [if_pos hfn]

/-- Keys of a well-formed ack table are below `ids`. -/
theorem acksWF_key_lt (s : SocketState) (hwf : acksWF s) (a : Nat)
    (ha : a ∈ s.acks.map Prod.fst) : a < s.ids := by
  obtain ⟨kv, hkv, hfst⟩ := List.mem_map.mp ha
  rw [← hfst]
  exact (hwf.1 kv hkv).1

/-- `emit` preserves well-formedness of the ack table. -/
theorem acksWF_emit (s : SocketState) (ev : String) (args : List Val)
    (hwf : acksWF s) : acksWF (Socket.emit s ev args).1 := by
  by_cases hr : RESERVED_EVENTS.contains ev = true
  · rw [emit_state_of_reserved s ev args hr]
    exact hwf
  · have h := emit_acks_ids s ev args (Bool.eq_false_iff.mpr hr)
    by_cases hw : lastIsFn (Val.str ev :: args) = true
    · simp only [if_pos hw] at h
      refine ⟨?_, ?_⟩
      · intro kv hkv
        rw [h.1] at hkv
        rw [h.2]
        rcases List.mem_append.mp hkv with hin | hin
        · exact ⟨Nat.lt_succ_of_lt (hwf.1 kv hin).1, (hwf.1 kv hin).2⟩
        · rw [List.mem_singleton.mp hin]
          exact ⟨Nat.lt_succ_self _,
            lastIsFn_getD (Val.str ev :: args) (Val.str ev) hw⟩
      · rw [h.1, List.map_append]
        refine List.Nodup.append hwf.2 (List.nodup_singleton _) ?_
        intro a ha hb
        have halt : a < s.ids := acksWF_key_lt s hwf a ha
        have : a = s.ids := by simpa using hb
        omega
    · simp only [if_neg hw] at h
      exact ⟨fun kv hkv => h.2 ▸ hwf.1 kv (h.1 ▸ hkv), h.1 ▸ hwf.2⟩

/-- Well-formedness of the ack table survives keeping it or filtering
it, as long as `ids` is unchanged. -/
theorem acksWF_of_cases (s t : SocketState)
    (hids : t.ids = s.ids)
    (hsub : t.acks = s.acks ∨
      ∃ i, t.acks = s.acks.filter (fun kv => kv.1 != i))
    (hwf : acksWF s) : acksWF t := by
  cases hsub with
  | inl he =>
      refine ⟨?_, ?_⟩
      · intro kv hkv
        rw [he] at hkv
        rw [hids]
        exact hwf.1 kv hkv
      · rw [he]
        exact hwf.2
  | inr hex =>
      obtain ⟨i, he⟩ := hex
      refine ⟨?_, ?_⟩
      · intro kv hkv
        rw [he] at hkv
        rw [hids]
        exact hwf.1 kv (List.mem_filter.mp hkv).1
      · rw [he]
        exact hwf.2.sublist ((List.filter_sublist s.acks).map Prod.fst)

/-- `onpacket` preserves well-formedness of the ack table. -/
theorem acksWF_onpacket (s : SocketState) (p : Packet)
    (hwf : acksWF s) : acksWF (Socket.onpacket s p).state := by
  refine acksWF_of_cases s (Socket.onpacket s p).state
    (onpacket_acks_cases s p).2 ?_ hwf
  exact (onpacket_acks_cases s p).1.imp id (fun ⟨i, _, he⟩ => ⟨i, he⟩)

/-- `Socket.disconnect` never touches the ack table. -/
theorem disconnect_acks (s : SocketState) :
    (Socket.disconnect s).state.acks = s.acks := by
  by_cases hc : s.connected = true <;>
    simp [Socket.disconnect, Socket.destroyFn, Socket.oncloseFn, hc]

/-- Counterexample for C2: a socket with a pending ack entry keeps that
entry across an explicit `disconnect()`, although the claim requires
it to be removed on explicit disconnect. -/
theorem disconnect_keeps_pending_acks_cex :
    (Socket.disconnect
        { nsp := "/", connected := true, disconnected := false,
          ids := 1, acks := [(0, Val.fn 7)], subs := true }).state.acks =
      [(0, Val.fn 7)] ∧
    (Socket.disconnect
        { nsp := "/", connected := true, disconnected := false,
          ids := 1, acks := [(0, Val.fn 7)], subs := true }).state.acks ≠
      [] := by
  have hr : (Socket.disconnect
      { nsp := "/", connected := true, disconnected := false,
        ids := 1, acks := [(0, Val.fn 7)], subs := true }).state.acks =
      [(0, Val.fn 7)] := rfl
  refine ⟨hr, ?_⟩
  rw [hr]
  exact List.cons_ne_nil _ _

/-- C2 (amended): over a socket whose ack table is well-formed, every
ack id issued by `emit` is the fresh value of the `ids` counter (so
unique over the socket's lifetime), `acks` gains exactly that one
entry, well-formedness is preserved by `emit` and by every inbound
packet, and the entry is removed on the first inbound ACK carrying its
id; an explicit disconnect, however, leaves the ack table unchanged. -/
theorem ack_id_lifecycle (s : SocketState) (ev : String)
    (args : List Val) (i : Nat) (cb : Val) (p : Packet)
    (hwf : acksWF s) :
    (∀ kv ∈ s.acks, kv.1 ≠ s.ids) ∧
    (RESERVED_EVENTS.contains ev = false →
       lastIsFn (Val.str ev :: args) = true →
       (Socket.emit s ev args).1.acks =
         s.acks ++
           [(s.ids, (Val.str ev :: args).getLast?.getD (Val.str ev))] ∧
       (Socket.emit s ev args).1.ids = s.ids + 1) ∧
    acksWF (Socket.emit s ev args).1 ∧
    acksWF (Socket.onpacket s p).state ∧
    (p.nsp = s.nsp →
       (p.type = PacketType.ACK ∨ p.type = PacketType.BINARY_ACK) →
       p.id = some i → s.acks.lookup i = some cb →
       (Socket.onpacket s p).state.acks =
         s.acks.filter (fun kv => kv.1 != i) ∧
       i ∉ (Socket.onpacket s p).state.acks.map Prod.fst) ∧
    (Socket.disconnect s).state.acks = s.acks := by
  refine ⟨?_, ?_, acksWF_emit s ev args hwf, acksWF_onpacket s p hwf,
    ?_, disconnect_acks s⟩
  · intro kv hkv
    exact Nat.ne_of_lt (hwf.1 kv hkv).1
  · intro hres hlast
    have h := emit_acks_ids s ev args hres
    simp only [if_pos hlast] at h
    exact h
  · intro hnsp htype hid hlk
    have hfn : cb.isFn = true := (hwf.1 (i, cb) (lookup_mem hlk)).2
    have hcond : (!(p.nsp == s.nsp) &&
        !(p.type == PacketType.ERROR && p.nsp == "/")) = false := by
      simp [hnsp]
    have hdisp := onpacket_dispatch s p hcond
    have hrem : (Socket.onpacket s p).state.acks =
        s.acks.filter (fun kv => kv.1 != i) := by
      rw [hdisp]
      cases htype with
      | inl ht => rw [ht]; exact onack_removes s p i cb hid hlk hfn
      | inr ht => rw [ht]; exact onack_removes s p i cb hid hlk hfn
    refine ⟨hrem, ?_⟩
    rw [hrem]
    exact not_mem_map_fst_filter s.acks i

/-- Witness for C2 at a connected socket holding ack 0: emitting with a
callback registers the fresh id 1, the inbound ACK 0 empties the
table, and disconnect leaves it alone. -/
theorem ack_id_lifecycle_witness :
    acksWF { nsp := "/", connected := true, disconnected := false,
             ids := 1, acks := [(0, Val.fn 7)], subs := true } ∧
    (Socket.emit
        { nsp := "/", connected := true, disconnected := false,
          ids := 1, acks := [(0, Val.fn 7)], subs := true }
        "ping" [Val.fn 9]).1.acks = [(0, Val.fn 7), (1, Val.fn 9)] ∧
    (Socket.emit
        { nsp := "/", connected := true, disconnected := false,
          ids := 1, acks := [(0, Val.fn 7)], subs := true }
        "ping" [Val.fn 9]).1.ids = 2 ∧
    (Socket.onpacket
        { nsp := "/", connected := true, disconnected := false,
          ids := 1, acks := [(0, Val.fn 7)], subs := true }
        { type := .ACK, nsp := "/", id := some 0,
          data := .arr [] }).state.acks = [] ∧
    (Socket.disconnect
        { nsp := "/", connected := true, disconnected := false,
          ids := 1, acks := [(0, Val.fn 7)], subs := true }).state.acks =
      [(0, Val.fn 7)] := by
  have hwf : acksWF { nsp := "/", connected := true,
                      disconnected := false, ids := 1,
                      acks := [(0, Val.fn 7)], subs := true } :=
    ⟨by decide, by decide⟩
  have h := ack_id_lifecycle
    { nsp := "/", connected := true, disconnected := false,
      ids := 1, acks := [(0, Val.fn 7)], subs := true }
    "ping" [Val.fn 9] 0 (Val.fn 7)
    { type := .ACK, nsp := "/", id := some 0, data := .arr [] } hwf
  refine ⟨hwf, ?_, ?_, ?_, h.2.2.2.2.2⟩
  · exact (h.2.1 rfl rfl).1.trans rfl
  · exact (h.2.1 rfl rfl).2
  · exact (h.2.2.2.2.1 rfl (Or.inl rfl) rfl rfl).1.trans rfl
